import Mathlib

/-!
Shallow embedding of the czn-dioxus authentication-and-task-dispensing core
(src/dispenser.rs, src/signing.rs, src/storage.rs).  Network, the external
signing tool and the filesystem are modelled as explicit oracles/state:
every network exchange is an attempt-indexed function so retry behaviour is
observable, and the three files the core touches (the transient challenge
file `key`, the signature file `key.sig`, and the token file) are one
record of `Option String` slots.
-/

set_option linter.unusedVariables false

deriving instance DecidableEq for Except

namespace Czn

/-- Left-whitespace trim on character lists: model of the leading half of
Rust `str::trim` (src/signing.rs, src/storage.rs), restricted to the ASCII
whitespace class `Char.isWhitespace`. -/
def ltrim : List Char → List Char
  | [] => []
  | a :: t => if a.isWhitespace then ltrim t else a :: t

/-- Right-whitespace trim on character lists: the trailing half of Rust
`str::trim`, written as a structural recursion so it evaluates in the
kernel. -/
def rtrim : List Char → List Char
  | [] => []
  | a :: t =>
    match rtrim t with
    | [] => if a.isWhitespace then [] else [a]
    | b :: u => a :: b :: u

/-- Both-sided whitespace trim on character lists. -/
def trim_chars (l : List Char) : List Char := rtrim (ltrim l)

/-- Model of Rust `str::trim` on `String` (used by the token loaders, the
signature cleaner and `extract_attr`). -/
def rust_trim (s : String) : String := String.mk (trim_chars s.data)

/-- Removes every occurrence of one character: model of Rust
`String::replace(char, "")` with an empty replacement. -/
def strip_char (c : Char) (s : String) : String :=
  String.mk (s.data.filter (fun a => a != c))

/-- Signature cleaning of src/signing.rs:105-109: the raw `key.sig` content
with `\r` and `\n` removed and the result trimmed. -/
def clean_signature (raw : String) : String :=
  rust_trim (strip_char '\n' (strip_char '\r' raw))

/-- ASCII control characters (C0 plus DEL), the ASCII fragment of Rust
`char::is_control`; used only to state what the spec calls "control
characters". -/
def isControlChar (c : Char) : Bool := c.toNat < 32 || c.toNat == 127

/-- Model of `extract_attr` (src/signing.rs:33-37): finds the first
comma-separated component whose trimmed form starts with `key` and drops
that prefix. -/
def extract_attr (s key : String) : Option String :=
  ((s.splitOn ",").find? (fun part => (rust_trim part).startsWith key)).map
    (fun part => (rust_trim part).drop key.length)

/-- The certificate fields the login flow reads (src/certificate.rs
`CertificateInfo`; the two Windows `FILETIME` fields are presentation-only
and omitted). -/
structure CertificateInfo where
  subject_name : String
  issuer_name : String
  serial_number : String
  thumbprint : String
  valid_from : String
  valid_to : String
deriving DecidableEq

/-- Signing-key selector of src/signing.rs:70-80: the normalized thumbprint
when non-empty, otherwise the certificate's CN attribute (empty string when
absent, matching `unwrap_or_default`). -/
def signing_selector (cert : CertificateInfo) : String :=
  let thumb := ((cert.thumbprint.replace ":" "").replace " " "").toUpper
  if thumb ≠ "" then thumb
  else (extract_attr cert.subject_name "CN=").getD ""

/-- The on-disk state the core touches: the transient challenge file `key`,
the signature file `key.sig`, and the durable token file.  `none` means the
file does not exist. -/
structure FS where
  key : Option String
  sig : Option String
  token : Option String
deriving DecidableEq

/-- Outcome of a completed `cryptcp` invocation (src/signing.rs:85-99):
exit status, captured streams, and the signature it wrote to `key.sig`. -/
structure ToolOut where
  exit_success : Bool
  stderr : String
  stdout : String
  sig_content : String
deriving DecidableEq

/-- Possible results of the one confirmation POST of
`send_signature_confirmation` (src/signing.rs:126-163): transport error,
2xx with parseable token, 2xx with unparseable body, or non-2xx. -/
inductive ConfirmHttp where
  | netErr (e : String)
  | okParsed (token : String)
  | okUnparsable (e : String)
  | rejected (status : String) (body : String)
deriving DecidableEq

/-- Environment of one login attempt: the challenge endpoint as an
attempt-indexed oracle (so retrying would be observable), the `cryptcp`
lookup and invocation, the confirmation endpoint, and whether persisting
the token fails.  The two challenge-fetch failure modes of
src/signing.rs:46-54 (network and JSON parse) are merged into the oracle's
error string. -/
structure SignEnv where
  challenge : Nat → Except String (String × String)
  find_cryptcp : Except String String
  cryptcp_exists : Bool
  run_cryptcp : String → Except String ToolOut
  confirm : ConfirmHttp
  save_token_fails : Bool

/-- Observable outcome of `sign_file_with_certificate`: the returned
result, the final file state, how many times the challenge endpoint and the
signing tool were invoked, and the signature values posted to the
confirmation endpoint (in order). -/
structure SignResult where
  result : Except String String
  fs : FS
  challenge_requests : Nat
  sign_invocations : Nat
  confirm_posts : List String
deriving DecidableEq

/-- Model of `send_signature_confirmation` (src/signing.rs:126-163): posts
the cleaned signature once; on 2xx with a parseable token it persists the
token — and still returns the success message when persisting fails, which
is only printed (src/signing.rs:149-153). -/
def send_signature_confirmation (env : SignEnv) (fs : FS) (uuid : String)
    (clean_sig : String) : Except String String × FS :=
  match env.confirm with
  | ConfirmHttp.netErr e => (Except.error ("Ошибка сети (simpleSignIn): " ++ e), fs)
  | ConfirmHttp.okParsed token =>
    let fs' := if env.save_token_fails then fs else { fs with token := some token }
    (Except.ok "Авторизация успешна. Токен сохранён.", fs')
  | ConfirmHttp.okUnparsable e => (Except.error ("Не удалось распарсить ответ: " ++ e), fs)
  | ConfirmHttp.rejected status body =>
    (Except.error ("Ошибка сервера: " ++ status ++ " — " ++ rust_trim body), fs)

/-- Model of `sign_file_with_certificate` (src/signing.rs:40-123), step by
step: fetch the challenge (one direct call), write it to `key`, locate and
run `cryptcp` (the tool writes `key.sig` on success), read and clean the
signature, post it for confirmation, and only then delete `key` and
`key.sig` (src/signing.rs:119-120).  Every early `return Err` leaves the
files as they were at that point. -/
def sign_file_with_certificate (env : SignEnv) (cert : CertificateInfo) (fs : FS) : SignResult :=
  match env.challenge 0 with
  | Except.error e =>
    { result := Except.error e, fs := fs,
      challenge_requests := 1, sign_invocations := 0, confirm_posts := [] }
  | Except.ok (uuid, data) =>
    let fs1 : FS := { fs with key := some data }
    match env.find_cryptcp with
    | Except.error e =>
      { result := Except.error ("Не найден cryptcp.exe: " ++ e), fs := fs1,
        challenge_requests := 1, sign_invocations := 0, confirm_posts := [] }
    | Except.ok _cryptcp_path =>
      if env.cryptcp_exists = false then
        { result := Except.error "cryptcp.exe не найден", fs := fs1,
          challenge_requests := 1, sign_invocations := 0, confirm_posts := [] }
      else
        match env.run_cryptcp (signing_selector cert) with
        | Except.error e =>
          { result := Except.error ("Ошибка выполнения cryptcp: " ++ e), fs := fs1,
            challenge_requests := 1, sign_invocations := 1, confirm_posts := [] }
        | Except.ok out =>
          if out.exit_success = false then
            let error :=
              if rust_trim out.stderr ≠ "" then rust_trim out.stderr
              else if rust_trim out.stdout ≠ "" then rust_trim out.stdout
              else "Неизвестная ошибка при выполнении cryptcp.exe"
            { result := Except.error ("Ошибка подписи: " ++ error), fs := fs1,
              challenge_requests := 1, sign_invocations := 1, confirm_posts := [] }
          else
            let fs2 : FS := { fs1 with sig := some out.sig_content }
            let signature_stripped := clean_signature out.sig_content
            if signature_stripped = "" then
              { result := Except.error "Подпись пустая после очистки", fs := fs2,
                challenge_requests := 1, sign_invocations := 1, confirm_posts := [] }
            else
              let conf := send_signature_confirmation env fs2 uuid signature_stripped
              { result := conf.1, fs := { conf.2 with key := none, sig := none },
                challenge_requests := 1, sign_invocations := 1,
                confirm_posts := [signature_stripped] }

/-- Model of `cleanup_temp_files` (src/storage.rs:67-71).  Note: it targets
the storage-module paths and is never invoked by the login flow, which
removes its own `key`/`key.sig` inline. -/
def cleanup_temp_files (fs : FS) : Except String Unit × FS :=
  (Except.ok (), { fs with key := none, sig := none })

/-- Model of `save_auth_token` (src/signing.rs:166-169): writes the token
verbatim to the token file. -/
def save_auth_token (token : String) (file : Option String) : Option String :=
  some token

/-- Model of `load_auth_token` (src/signing.rs:172-181): missing file is
the not-authenticated error; otherwise the content is returned trimmed. -/
def load_auth_token (file : Option String) : Except String String :=
  match file with
  | none => Except.error "Токен не найден"
  | some s => Except.ok (rust_trim s)

/-- Model of `save_token` (src/storage.rs:74-78): writes the token
trimmed. -/
def save_token (token : String) (file : Option String) : Option String :=
  some (rust_trim token)

/-- Model of `load_token` (src/storage.rs:81-97): missing file is the
not-found error; a trimmed-empty content is the distinct "token empty"
error; otherwise the trimmed content. -/
def load_token (file : Option String) : Except String String :=
  match file with
  | none => Except.error "Токен не найден"
  | some s =>
    let trimmed := rust_trim s
    if trimmed = "" then Except.error "Токен пуст" else Except.ok trimmed

/-- Model of the retry loop `send_with_retry` (src/dispenser.rs:189-209).
The action is attempt-indexed (`action i` is the result of its i-th
invocation).  `remaining` is the structural countdown for the loop guard
`attempts < 3`; `attempts` mirrors the source counter and indexes the
oracle; `delay` doubles after each failed attempt; `sleeps` records, in
order, the delays slept between attempts.  Returns the final result, the
number of invocations, and the sleep trace. -/
def send_with_retry_go (action : Nat → Except String α) :
    Nat → Nat → Nat → List Nat → Except String α × Nat × List Nat
  | remaining, attempts, delay, sleeps =>
    match action attempts, remaining with
    | Except.ok res, _ => (Except.ok res, attempts + 1, sleeps)
    | Except.error e, 0 => (Except.error e, attempts + 1, sleeps)
    | Except.error _e, r + 1 =>
      send_with_retry_go action r (attempts + 1) (delay * 2) (sleeps ++ [delay])

/-- Entry point of the retry loop: `attempts = 0`, `delay = 1`, at most 3
retries after the first attempt. -/
def send_with_retry (action : Nat → Except String α) : Except String α × Nat × List Nat :=
  send_with_retry_go action 3 0 1 []

/-- Server's task descriptor `TaskResponse` (src/dispenser.rs:113-135). -/
structure TaskResponse where
  id : String
  name : String
  create_date : String
  current_status : String
  data_start_date : String
  data_end_date : String
  org_inn : String
  periodicity : String
  product_group_code : Int
  timeout_secs : Int
deriving DecidableEq

/-- Registry entry `TaskInfo` (src/dispenser.rs:138-146); `create_date` is
a `NaiveDate` modelled as a day number counted from a fixed Monday. -/
structure TaskInfo where
  id : String
  product_group_code : Int
  data_start_date : String
  data_end_date : String
  status : String
  create_date : Int
deriving DecidableEq

/-- Request body `TaskRequest` (src/dispenser.rs:94-110); the two dates
keep the day-number representation (the source renders them with the
injective `%Y-%m-%d` format). -/
structure TaskRequest where
  name : String
  data_start_date : Int
  data_end_date : Int
  format : String
  periodicity : String
  params : String
  product_group_code : Int
deriving DecidableEq

/-- The fixed ordered category list `PRODUCT_GROUP_CODES`
(src/dispenser.rs:182). -/
def PRODUCT_GROUP_CODES : List Int := [12, 16, 20]

/-- `VIOLATION_CATEGORY` (src/dispenser.rs:183). -/
def VIOLATION_CATEGORY : List Int := [1, 2, 4, 5, 6, 7, 8, 9, 10]

/-- `VIOLATION_KIND` (src/dispenser.rs:184-186). -/
def VIOLATION_KIND : List Int :=
  [1, 2, 5, 12, 13, 3, 24, 25, 6, 7, 10, 11, 14, 15, 16, 17, 18, 19, 20, 21, 22, 23, 26]

/-- Compact JSON rendering of an integer list, as `serde_json::to_string`
produces it. -/
def int_list_json : List Int → String
  | [] => "[]"
  | x :: xs => "[" ++ toString x ++ String.join (xs.map (fun y => "," ++ toString y)) ++ "]"

/-- The fixed params payload built at src/dispenser.rs:226-230. -/
def violation_params_json : String :=
  "\x7b\"violationCategory\":" ++ int_list_json VIOLATION_CATEGORY
    ++ ",\"violationKind\":" ++ int_list_json VIOLATION_KIND ++ "\x7d"

/-- chrono's `weekday().num_days_from_monday()` for a date given as a day
number counted from a fixed Monday: 0 for Monday … 6 for Sunday. -/
def num_days_from_monday (d : Int) : Int := d % 7

/-- The report window computed at src/dispenser.rs:215-218: the Monday of
the week before the week containing `today`, and that Monday plus 6
days. -/
def report_window (today : Int) : Int × Int :=
  let current_week_start := today - num_days_from_monday today
  let last_week_start := current_week_start - 7
  (last_week_start, last_week_start + 6)

/-- The single locked registry update of src/dispenser.rs:332-336: retain
the records less than 7 days old, then append the round's new records. -/
def registry_update (today : Int) (tasks new_tasks : List TaskInfo) : List TaskInfo :=
  tasks.filter (fun t => today - t.create_date < 7) ++ new_tasks

/-- Environment of one submission round: the token-load result, today's
date, the `POST /dispenser/tasks` endpoint per category as an
attempt-indexed oracle yielding `(status, body)`, the JSON decoding of a
body into a `TaskResponse`, and the `NaiveDate` parse of a `createDate`
string. -/
structure FetchEnv where
  token : Except String String
  today : Int
  respond : Int → Nat → Except String (String × String)
  parse : String → Except String TaskResponse
  parse_date : String → Option Int

/-- Request body for one category (src/dispenser.rs:237-245). -/
def mk_task_request (window : Int × Int) (params_json : String) (code : Int) : TaskRequest :=
  { name := "VIOLATIONS", data_start_date := window.1, data_end_date := window.2,
    format := "CSV", periodicity := "SINGLE", params := params_json,
    product_group_code := code }

/-- Per-category body of the submission loop (src/dispenser.rs:258-329):
the request goes through `send_with_retry`; on success the body is decoded
and yields the success outcome line plus a new `TaskInfo` (with the
`createDate` parse falling back to today); a decode failure or an exhausted
request yields the corresponding failure line and no record. -/
def category_outcome (env : FetchEnv) (code : Int) : String × Option TaskInfo :=
  match (send_with_retry (env.respond code)).1 with
  | Except.ok (_status, response_text) =>
    match env.parse response_text with
    | Except.ok task =>
      let create_date := (env.parse_date task.create_date).getD env.today
      ("✅ Запрос #" ++ toString task.product_group_code ++ ", "
         ++ toString task.product_group_code ++ " (id: " ++ task.id ++ ")",
       some { id := task.id, product_group_code := task.product_group_code,
              data_start_date := task.data_start_date,
              data_end_date := task.data_end_date,
              status := task.current_status, create_date := create_date })
    | Except.error _e => ("❌ Ошибка ответа: " ++ response_text, none)
  | Except.error e =>
    ("❌ Не удалось создать задачу для pg=" ++ toString code ++ ": " ++ e, none)

/-- The `for` loop of `fetch_violation_tasks` over the category list:
accumulates the outcome lines, the new records, and the request bodies
built, all in input order. -/
def fetch_loop (env : FetchEnv) : List Int → List String × List TaskInfo × List TaskRequest
  | [] => ([], [], [])
  | code :: rest =>
    let body := mk_task_request (report_window env.today) violation_params_json code
    let co := category_outcome env code
    let r := fetch_loop env rest
    (co.1 :: r.1, co.2.toList ++ r.2.1, body :: r.2.2)

/-- Observable outcome of one submission round: the returned value, the
registry after the locked update, and the request bodies issued. -/
structure FetchResult where
  result : Except String (List String)
  registry : List TaskInfo
  requests : List TaskRequest
deriving DecidableEq

/-- Model of `fetch_violation_tasks` (src/dispenser.rs:212-339): bail out
with the not-authorized error when no token loads; otherwise compute the
window once, submit every category, and perform the single registry
update. -/
def fetch_violation_tasks (env : FetchEnv) (tasks0 : List TaskInfo) : FetchResult :=
  match env.token with
  | Except.error e =>
    { result := Except.error ("Не авторизован: " ++ e), registry := tasks0, requests := [] }
  | Except.ok _token =>
    let r := fetch_loop env PRODUCT_GROUP_CODES
    { result := Except.ok r.1,
      registry := registry_update env.today tasks0 r.2.1,
      requests := r.2.2 }

/-- Probe action for the retry client: fails on attempts 0 and 1, succeeds
from attempt 2 on. -/
def retryProbeA : Nat → Except String String :=
  fun i => if i < 2 then Except.error "boom" else Except.ok "done"

/-- Probe action for the backoff schedule: fails on attempts 0, 1 and 2,
succeeds on attempt 3. -/
def retryProbeB : Nat → Except String String :=
  fun i => if i < 3 then Except.error "slow" else Except.ok "fine"

/-- A concrete certificate used by the login-flow probes. -/
def cert0 : CertificateInfo :=
  { subject_name := "CN=Тест", issuer_name := "ca", serial_number := "1",
    thumbprint := "", valid_from := "2025-01-01", valid_to := "2027-01-01" }

/-- Empty starting filesystem: none of the three files exist. -/
def fs0 : FS := { key := none, sig := none, token := none }

/-- Login environment in which the challenge arrives but `cryptcp` is not
found: an early failure exit of the flow. -/
def env3bad : SignEnv :=
  { challenge := fun _ => Except.ok ("u", "d"),
    find_cryptcp := Except.error "cryptcp.exe не найден",
    cryptcp_exists := false,
    run_cryptcp := fun _ => Except.error "unused",
    confirm := ConfirmHttp.netErr "unused",
    save_token_fails := false }

/-- Login environment in which every step succeeds. -/
def env3good : SignEnv :=
  { challenge := fun _ => Except.ok ("u", "d"),
    find_cryptcp := Except.ok "cryptcp.exe",
    cryptcp_exists := true,
    run_cryptcp := fun _ =>
      Except.ok { exit_success := true, stderr := "", stdout := "", sig_content := "SIGDATA" },
    confirm := ConfirmHttp.okParsed "tok",
    save_token_fails := false }

/-- Login environment whose challenge endpoint fails on the first attempt
and would succeed on every later one. -/
def env6 : SignEnv :=
  { challenge := fun i =>
      if i == 0 then Except.error "Ошибка сети (key): boom" else Except.ok ("u", "d"),
    find_cryptcp := Except.ok "cryptcp.exe",
    cryptcp_exists := true,
    run_cryptcp := fun _ =>
      Except.ok { exit_success := true, stderr := "", stdout := "", sig_content := "SIGDATA" },
    confirm := ConfirmHttp.okParsed "tok",
    save_token_fails := false }

/-- Login environment whose signing tool emits a signature containing an
interior TAB character. -/
def env7 : SignEnv :=
  { challenge := fun _ => Except.ok ("u", "d"),
    find_cryptcp := Except.ok "cryptcp.exe",
    cryptcp_exists := true,
    run_cryptcp := fun _ =>
      Except.ok { exit_success := true, stderr := "", stdout := "", sig_content := "a\tb" },
    confirm := ConfirmHttp.okParsed "tok",
    save_token_fails := false }

/-- Login environment whose signing tool emits only whitespace, so the
cleaned signature is empty. -/
def env7e : SignEnv :=
  { challenge := fun _ => Except.ok ("u", "d"),
    find_cryptcp := Except.ok "cryptcp.exe",
    cryptcp_exists := true,
    run_cryptcp := fun _ =>
      Except.ok { exit_success := true, stderr := "", stdout := "", sig_content := " \n " },
    confirm := ConfirmHttp.okParsed "tok",
    save_token_fails := false }

/-- Login environment where confirmation succeeds but persisting the token
fails. -/
def env10 : SignEnv :=
  { challenge := fun _ => Except.ok ("u", "d"),
    find_cryptcp := Except.ok "cryptcp.exe",
    cryptcp_exists := true,
    run_cryptcp := fun _ =>
      Except.ok { exit_success := true, stderr := "", stdout := "", sig_content := "SIGDATA" },
    confirm := ConfirmHttp.okParsed "tok10",
    save_token_fails := true }

/-- A registry record created exactly 7 days before day 7. -/
def task_age7 : TaskInfo :=
  { id := "t7", product_group_code := 12, data_start_date := "s", data_end_date := "e",
    status := "NEW", create_date := 0 }

/-- A registry record created 8 days before day 8. -/
def task_age8 : TaskInfo :=
  { id := "t8", product_group_code := 16, data_start_date := "s", data_end_date := "e",
    status := "NEW", create_date := 0 }

/-- A registry record created 1 day before day 8. -/
def task_age1 : TaskInfo :=
  { id := "t1", product_group_code := 20, data_start_date := "s", data_end_date := "e",
    status := "NEW", create_date := 7 }

/-- Concrete task descriptor returned for category 12. -/
def task12 : TaskResponse :=
  { id := "id12", name := "VIOLATIONS", create_date := "2026-10-01",
    current_status := "NEW", data_start_date := "ws", data_end_date := "we",
    org_inn := "inn", periodicity := "SINGLE", product_group_code := 12,
    timeout_secs := 60 }

/-- Concrete task descriptor returned for category 16. -/
def task16 : TaskResponse :=
  { id := "id16", name := "VIOLATIONS", create_date := "2026-10-01",
    current_status := "NEW", data_start_date := "ws", data_end_date := "we",
    org_inn := "inn", periodicity := "SINGLE", product_group_code := 16,
    timeout_secs := 60 }

/-- Submission-round environment in which categories 12 and 16 succeed and
category 20 fails on every attempt. -/
def env5 : FetchEnv :=
  { token := Except.ok "tkn",
    today := 10,
    respond := fun code _ =>
      if code == 20 then Except.error "boom"
      else Except.ok ("200 OK", if code == 12 then "b12" else "b16"),
    parse := fun body =>
      if body == "b12" then Except.ok task12
      else if body == "b16" then Except.ok task16
      else Except.error "bad json",
    parse_date := fun s => if s == "2026-10-01" then some 9 else none }

/-- Submission-round environment for the report-window probe (day 9 is the
Wednesday of the week starting at day 7). -/
def env9 : FetchEnv :=
  { token := Except.ok "t",
    today := 9,
    respond := fun _ _ => Except.error "down",
    parse := fun _ => Except.error "bad json",
    parse_date := fun _ => none }

/-! Helper lemmas about the trim model. -/

/-- Left trim never lengthens a list. -/
theorem ltrim_length_le (l : List Char) : (ltrim l).length ≤ l.length := by
  induction l with
  | nil => simp [ltrim]
  | cons a t ih =>
    cases h : a.isWhitespace
    · simp [ltrim, h]
    · simp [ltrim, h]
      omega

/-- Left trim is idempotent. -/
theorem ltrim_ltrim (l : List Char) : ltrim (ltrim l) = ltrim l := by
  induction l with
  | nil => rfl
  | cons a t ih =>
    cases h : a.isWhitespace <;> simp [ltrim, h, ih]

/-- One-step unfolding of `rtrim` on a cons cell. -/
theorem rtrim_cons (a : Char) (t : List Char) :
    rtrim (a :: t) = match rtrim t with
      | [] => if a.isWhitespace then [] else [a]
      | b :: u => a :: b :: u := rfl

/-- Right trim is idempotent. -/
theorem rtrim_rtrim (l : List Char) : rtrim (rtrim l) = rtrim l := by
  induction l with
  | nil => rfl
  | cons a t ih =>
    cases h : rtrim t with
    | nil =>
      cases hw : a.isWhitespace <;> simp [rtrim, h, hw]
    | cons b u =>
      have hbu : rtrim (b :: u) = b :: u := by rw [← h]; exact ih
      calc rtrim (rtrim (a :: t)) = rtrim (a :: b :: u) := by rw [rtrim_cons, h]
        _ = a :: b :: u := by rw [rtrim_cons, hbu]
        _ = rtrim (a :: t) := by rw [rtrim_cons, h]

/-- Right trim preserves left-trimmedness. -/
theorem ltrim_rtrim_of (m : List Char) (h : ltrim m = m) : ltrim (rtrim m) = rtrim m := by
  cases m with
  | nil => rfl
  | cons a t =>
    have ha : a.isWhitespace = false := by
      cases hw : a.isWhitespace
      · rfl
      · exfalso
        rw [ltrim] at h
        simp [hw] at h
        have hle := ltrim_length_le t
        rw [h] at hle
        simp at hle
    cases hr : rtrim t with
    | nil => simp [rtrim, hr, ha, ltrim]
    | cons b u => simp [rtrim, hr, ltrim, ha]

/-- The character-list trim is idempotent. -/
theorem trim_chars_idem (l : List Char) : trim_chars (trim_chars l) = trim_chars l := by
  unfold trim_chars
  rw [ltrim_rtrim_of (ltrim l) (ltrim_ltrim l), rtrim_rtrim]

/-- The string trim model is idempotent. -/
theorem rust_trim_idem (s : String) : rust_trim (rust_trim s) = rust_trim s :=
  congrArg String.mk (trim_chars_idem s.data)

/-! Helper lemmas about the retry loop. -/

/-- A successful attempt is returned at once, with no further sleep. -/
theorem go_ok {α : Type} (action : Nat → Except String α) (r n d : Nat) (s : List Nat)
    (v : α) (h : action n = Except.ok v) :
    send_with_retry_go action r n d s = (Except.ok v, n + 1, s) := by
  cases r <;> simp [send_with_retry_go, h]

/-- A failed attempt with retries left sleeps the current delay, doubles
it, and moves to the next attempt. -/
theorem go_err_step {α : Type} (action : Nat → Except String α) (r n d : Nat) (s : List Nat)
    (e : String) (h : action n = Except.error e) :
    send_with_retry_go action (r + 1) n d s
      = send_with_retry_go action r (n + 1) (d * 2) (s ++ [d]) := by
  simp [send_with_retry_go, h]

/-- A failed attempt with no retries left returns that error. -/
theorem go_err_zero {α : Type} (action : Nat → Except String α) (n d : Nat) (s : List Nat)
    (e : String) (h : action n = Except.error e) :
    send_with_retry_go action 0 n d s = (Except.error e, n + 1, s) := by
  simp [send_with_retry_go, h]

/-! Claim theorems. -/

/-- C1: the retry client returns the value of the first successful attempt
and never invokes the action again (the invocation count is that attempt's
index plus one), and when all four attempts fail it returns exactly the
error produced by the fourth attempt. -/
theorem send_with_retry_first_success_last_error {α : Type}
    (action : Nat → Except String α) :
    (∀ k, k ≤ 3 → ∀ v : α, (∀ i, i < k → ∃ e, action i = Except.error e) →
        action k = Except.ok v →
        (send_with_retry action).1 = Except.ok v ∧ (send_with_retry action).2.1 = k + 1) ∧
    (∀ e0 e1 e2 e3, action 0 = Except.error e0 → action 1 = Except.error e1 →
        action 2 = Except.error e2 → action 3 = Except.error e3 →
        (send_with_retry action).1 = Except.error e3) := by
  constructor
  · intro k hk v hfail hsucc
    interval_cases k
    · unfold send_with_retry
      rw [go_ok action _ _ _ _ _ hsucc]
      exact ⟨rfl, rfl⟩
    · obtain ⟨e0, h0⟩ := hfail 0 (by omega)
      unfold send_with_retry
      rw [go_err_step action _ _ _ _ _ h0, go_ok action _ _ _ _ _ hsucc]
      exact ⟨rfl, rfl⟩
    · obtain ⟨e0, h0⟩ := hfail 0 (by omega)
      obtain ⟨e1, h1⟩ := hfail 1 (by omega)
      unfold send_with_retry
      rw [go_err_step action _ _ _ _ _ h0, go_err_step action _ _ _ _ _ h1,
        go_ok action _ _ _ _ _ hsucc]
      exact ⟨rfl, rfl⟩
    · obtain ⟨e0, h0⟩ := hfail 0 (by omega)
      obtain ⟨e1, h1⟩ := hfail 1 (by omega)
      obtain ⟨e2, h2⟩ := hfail 2 (by omega)
      unfold send_with_retry
      rw [go_err_step action _ _ _ _ _ h0, go_err_step action _ _ _ _ _ h1,
        go_err_step action _ _ _ _ _ h2, go_ok action _ _ _ _ _ hsucc]
      exact ⟨rfl, rfl⟩
  · intro e0 e1 e2 e3 h0 h1 h2 h3
    unfold send_with_retry
    rw [go_err_step action _ _ _ _ _ h0, go_err_step action _ _ _ _ _ h1,
      go_err_step action _ _ _ _ _ h2, go_err_zero action _ _ _ _ h3]

/-- Witness for C1: a concrete action failing on attempts 0 and 1 and
succeeding on attempt 2 yields that success after exactly 3 invocations. -/
theorem send_with_retry_first_success_last_error_witness :
    (send_with_retry retryProbeA).1 = Except.ok "done" ∧
    (send_with_retry retryProbeA).2.1 = 3 := by
  refine (send_with_retry_first_success_last_error retryProbeA).1 2 (by omega) "done"
    ?_ (by decide)
  intro i hi
  interval_cases i
  · exact ⟨"boom", by decide⟩
  · exact ⟨"boom", by decide⟩

/-- C2: no sleep precedes the first attempt (a first-attempt success
returns with an empty sleep trace), and an action failing three times then
succeeding on the fourth returns the success value after sleeping exactly
1, 2 and 4 time units before attempts 2, 3 and 4 — a total delay of
1+2+4. -/
theorem send_with_retry_backoff_schedule {α : Type} (action : Nat → Except String α) :
    (∀ v : α, action 0 = Except.ok v → send_with_retry action = (Except.ok v, 1, [])) ∧
    (∀ (v : α) (e0 e1 e2 : String), action 0 = Except.error e0 →
        action 1 = Except.error e1 → action 2 = Except.error e2 →
        action 3 = Except.ok v →
        (send_with_retry action).1 = Except.ok v ∧
        (send_with_retry action).2.2 = [1, 2, 4] ∧
        ((send_with_retry action).2.2).sum = 1 + 2 + 4) := by
  constructor
  · intro v h0
    unfold send_with_retry
    rw [go_ok action _ _ _ _ _ h0]
  · intro v e0 e1 e2 h0 h1 h2 h3
    unfold send_with_retry
    rw [go_err_step action _ _ _ _ _ h0, go_err_step action _ _ _ _ _ h1,
      go_err_step action _ _ _ _ _ h2, go_ok action _ _ _ _ _ h3]
    refine ⟨rfl, by simp, by simp⟩

/-- Witness for C2: a concrete action failing three times then succeeding
returns the success with sleep trace [1, 2, 4] summing to 7. -/
theorem send_with_retry_backoff_schedule_witness :
    (send_with_retry retryProbeB).1 = Except.ok "fine" ∧
    (send_with_retry retryProbeB).2.2 = [1, 2, 4] ∧
    ((send_with_retry retryProbeB).2.2).sum = 1 + 2 + 4 :=
  (send_with_retry_backoff_schedule retryProbeB).2 "fine" "slow" "slow" "slow"
    (by decide) (by decide) (by decide) (by decide)

/-- C3 counterexample: with the challenge received but `cryptcp` missing,
the login attempt exits early with a failure while the challenge file
`key` still exists on disk — cleanup does not run on this exit path. -/
theorem sign_cleanup_fails_on_early_exit :
    (sign_file_with_certificate env3bad cert0 fs0).fs.key = some "d" ∧
    (sign_file_with_certificate env3bad cert0 fs0).result
      = Except.error "Не найден cryptcp.exe: cryptcp.exe не найден" := by
  exact ⟨rfl, rfl⟩

/-- C3 amended: on every exit path that reaches the confirmation step (a
signature was posted), the transient `key` and `key.sig` files no longer
exist afterwards, whether confirmation succeeded or failed; failure exits
before that step can leave the files on disk. -/
theorem sign_cleanup_after_confirmation (env : SignEnv) (cert : CertificateInfo) (fs : FS)
    (h : (sign_file_with_certificate env cert fs).confirm_posts ≠ []) :
    (sign_file_with_certificate env cert fs).fs.key = none ∧
    (sign_file_with_certificate env cert fs).fs.sig = none := by
  unfold sign_file_with_certificate at h ⊢
  cases hc : env.challenge 0 with
  | error e => simp [hc] at h
  | ok pair =>
    obtain ⟨uuid, data⟩ := pair
    cases hf : env.find_cryptcp with
    | error e => simp [hc, hf] at h
    | ok p =>
      cases hx : env.cryptcp_exists with
      | false => simp [hc, hf, hx] at h
      | true =>
        cases hr : env.run_cryptcp (signing_selector cert) with
        | error e => simp [hc, hf, hx, hr] at h
        | ok out =>
          cases hs : out.exit_success with
          | false => simp [hc, hf, hx, hr, hs] at h
          | true =>
            by_cases hsig : clean_signature out.sig_content = ""
            · simp [hc, hf, hx, hr, hs, hsig] at h
            · simp [hc, hf, hx, hr, hs, hsig]

/-- Witness for C3 (amended): in a login where every step succeeds, the
final state has neither `key` nor `key.sig`. -/
theorem sign_cleanup_after_confirmation_witness :
    (sign_file_with_certificate env3good cert0 fs0).fs.key = none ∧
    (sign_file_with_certificate env3good cert0 fs0).fs.sig = none :=
  sign_cleanup_after_confirmation env3good cert0 fs0 (by decide)

/-- C4 counterexample: a record created exactly 7 days ago — hence not
older than 7 days — is nevertheless evicted by the registry update, which
keeps only records strictly younger than 7 days. -/
theorem registry_evicts_exactly_week_old_record :
    (7 : Int) - task_age7.create_date = 7 ∧
    registry_update 7 [task_age7] [] = [] := by
  exact ⟨rfl, rfl⟩

/-- C4 amended: the registry update is a single step after which a record
is present exactly when it was already present and is younger than 7 days,
or is one of the round's new records; in particular an 8-day-old record is
absent afterwards and a 1-day-old record is retained. -/
theorem registry_update_membership (today : Int) (tasks new_tasks : List TaskInfo)
    (t : TaskInfo) :
    (t ∈ registry_update today tasks new_tasks ↔
      (t ∈ tasks ∧ today - t.create_date < 7) ∨ t ∈ new_tasks) ∧
    task_age8 ∉ registry_update 8 [task_age8, task_age1] [] ∧
    task_age1 ∈ registry_update 8 [task_age8, task_age1] [] := by
  refine ⟨?_, by decide, by decide⟩
  simp [registry_update, List.mem_filter]

/-- The submission loop processes the categories independently: one outcome
line per category in input order, a new record exactly for the categories
whose submission produced a parsed descriptor, and one request body per
category. -/
theorem fetch_loop_spec (env : FetchEnv) (codes : List Int) :
    fetch_loop env codes
      = (codes.map (fun c => (category_outcome env c).1),
         codes.flatMap (fun c => ((category_outcome env c).2).toList),
         codes.map (fun c =>
           mk_task_request (report_window env.today) violation_params_json c)) := by
  induction codes with
  | nil => rfl
  | cons c rest ih => simp [fetch_loop, ih]

/-- C5: with a token loaded, a submission round returns one outcome line
per configured category in the fixed order [12, 16, 20] (length 3), one
category's failure does not abort the others, and the registry gains a new
record exactly for each category whose submission succeeded, appended after
the retained records. -/
theorem fetch_outcomes_per_category (env : FetchEnv) (tasks0 : List TaskInfo) (tok : String)
    (h : env.token = Except.ok tok) :
    PRODUCT_GROUP_CODES = [12, 16, 20] ∧
    (fetch_violation_tasks env tasks0).result
      = Except.ok (PRODUCT_GROUP_CODES.map (fun c => (category_outcome env c).1)) ∧
    (PRODUCT_GROUP_CODES.map (fun c => (category_outcome env c).1)).length = 3 ∧
    (fetch_violation_tasks env tasks0).registry
      = tasks0.filter (fun t => env.today - t.create_date < 7)
        ++ PRODUCT_GROUP_CODES.flatMap (fun c => ((category_outcome env c).2).toList) := by
  refine ⟨rfl, ?_, by simp [PRODUCT_GROUP_CODES], ?_⟩ <;>
    simp [fetch_violation_tasks, h, fetch_loop_spec, registry_update]

/-- Witness for C5: the spec's scenario — categories 12 and 16 succeed,
20 fails — yields three outcome lines in category order and exactly two
new registry records. -/
theorem fetch_outcomes_per_category_witness :
    (fetch_violation_tasks env5 []).result = Except.ok
      ["✅ Запрос #12, 12 (id: id12)", "✅ Запрос #16, 16 (id: id16)",
       "❌ Не удалось создать задачу для pg=20: boom"] ∧
    (fetch_violation_tasks env5 []).registry.length = 2 ∧
    (fetch_violation_tasks env5 []).registry
      = ([] : List TaskInfo).filter (fun t => env5.today - t.create_date < 7)
        ++ PRODUCT_GROUP_CODES.flatMap (fun c => ((category_outcome env5 c).2).toList) := by
  have h := fetch_outcomes_per_category env5 [] "tkn" rfl
  exact ⟨by decide, by decide, h.2.2.2⟩

/-- C6 counterexample: the challenge endpoint fails on its first attempt
and would succeed on every later one — the retrying client run on the very
same oracle succeeds — yet the login flow queries it exactly once and
fails: the challenge request is not executed through the retrying
client. -/
theorem challenge_request_not_retried :
    (sign_file_with_certificate env6 cert0 fs0).challenge_requests = 1 ∧
    (sign_file_with_certificate env6 cert0 fs0).result
      = Except.error "Ошибка сети (key): boom" ∧
    (send_with_retry env6.challenge).1 = Except.ok ("u", "d") := by
  exact ⟨rfl, rfl, by decide⟩

/-- C6 amended: within one login attempt no network step is retried — the
challenge endpoint is queried exactly once, and signing and the
confirmation POST are each attempted at most once per challenge. -/
theorem login_steps_single_attempt (env : SignEnv) (cert : CertificateInfo) (fs : FS) :
    (sign_file_with_certificate env cert fs).challenge_requests = 1 ∧
    (sign_file_with_certificate env cert fs).sign_invocations ≤ 1 ∧
    (sign_file_with_certificate env cert fs).confirm_posts.length ≤ 1 := by
  unfold sign_file_with_certificate
  cases hc : env.challenge 0 with
  | error e => simp
  | ok pair =>
    obtain ⟨uuid, data⟩ := pair
    cases hf : env.find_cryptcp with
    | error e => simp
    | ok p =>
      cases hx : env.cryptcp_exists with
      | false => simp
      | true =>
        cases hr : env.run_cryptcp (signing_selector cert) with
        | error e => simp
        | ok out =>
          cases hs : out.exit_success with
          | false => simp [hs]
          | true =>
            by_cases hsig : clean_signature out.sig_content = "" <;> simp [hs, hsig]

/-- Witness for C6 (amended): concrete instance at the probe login
environment. -/
theorem login_steps_single_attempt_witness :
    (sign_file_with_certificate env6 cert0 fs0).challenge_requests = 1 ∧
    (sign_file_with_certificate env6 cert0 fs0).sign_invocations ≤ 1 ∧
    (sign_file_with_certificate env6 cert0 fs0).confirm_posts.length ≤ 1 :=
  login_steps_single_attempt env6 cert0 fs0

/-- C7 counterexample: a signature file containing `a\tb` is posted with
its interior TAB — a control character — intact: the cleaning strips only
CR and LF, not all control characters. -/
theorem posted_signature_keeps_control_char :
    (sign_file_with_certificate env7 cert0 fs0).confirm_posts = ["a\tb"] ∧
    isControlChar '\t' = true := by
  exact ⟨rfl, rfl⟩

/-- C7 amended: the value posted to the confirmation endpoint is the
signature file's content with CR and LF removed and surrounding whitespace
trimmed; when that cleaned value is empty the attempt fails with the
empty-signature error and nothing is posted. -/
theorem clean_signature_post_policy (env : SignEnv) (cert : CertificateInfo) (fs : FS)
    (uuid data path : String) (out : ToolOut)
    (hch : env.challenge 0 = Except.ok (uuid, data))
    (hf : env.find_cryptcp = Except.ok path)
    (hx : env.cryptcp_exists = true)
    (hr : env.run_cryptcp (signing_selector cert) = Except.ok out)
    (hs : out.exit_success = true) :
    (clean_signature out.sig_content = "" →
      (sign_file_with_certificate env cert fs).result
        = Except.error "Подпись пустая после очистки" ∧
      (sign_file_with_certificate env cert fs).confirm_posts = []) ∧
    (clean_signature out.sig_content ≠ "" →
      (sign_file_with_certificate env cert fs).confirm_posts
        = [clean_signature out.sig_content]) := by
  constructor
  · intro hsig
    unfold sign_file_with_certificate
    simp [hch, hf, hx, hr, hs, hsig]
  · intro hsig
    unfold sign_file_with_certificate
    simp [hch, hf, hx, hr, hs, hsig]

/-- Witness for C7 (amended): a tool output that is pure whitespace cleans
to the empty signature, the flow fails with the empty-signature error, and
nothing is posted. -/
theorem clean_signature_post_policy_witness :
    (sign_file_with_certificate env7e cert0 fs0).result
      = Except.error "Подпись пустая после очистки" ∧
    (sign_file_with_certificate env7e cert0 fs0).confirm_posts = [] := by
  have h := clean_signature_post_policy env7e cert0 fs0 "u" "d" "cryptcp.exe"
    { exit_success := true, stderr := "", stdout := "", sig_content := " \n " }
    rfl rfl rfl rfl rfl
  exact h.1 (by decide)

/-- C8 counterexample: the storage pair does not round-trip every token —
saving a whitespace-only token and loading it back does not return the
trimmed (empty) token but fails with the token-empty error. -/
theorem token_roundtrip_whitespace_only_fails :
    rust_trim " " = "" ∧
    load_token (save_token " " none) = Except.error "Токен пуст" := by
  exact ⟨rfl, rfl⟩

/-- C8 amended: saving then loading via the signing-module pair returns the
token with surrounding whitespace stripped, for every token; the storage
pair does the same for every token that trims to a non-empty string (a
whitespace-only token loads back as the token-empty error); loading with no
token file present fails with the not-found (not-authenticated) error in
both pairs. -/
theorem token_roundtrip (token : String) (file : Option String) :
    load_auth_token (save_auth_token token file) = Except.ok (rust_trim token) ∧
    (rust_trim token ≠ "" →
      load_token (save_token token file) = Except.ok (rust_trim token)) ∧
    load_auth_token none = Except.error "Токен не найден" ∧
    load_token none = Except.error "Токен не найден" := by
  refine ⟨rfl, ?_, rfl, rfl⟩
  intro h
  unfold load_token save_token
  simp only [rust_trim_idem]
  simp [h]

/-- Witness for C8 (amended): the token " tok " round-trips to "tok"
through both pairs, and the empty-file loads fail with the not-found
error. -/
theorem token_roundtrip_witness :
    load_auth_token (save_auth_token " tok " none) = Except.ok "tok" ∧
    load_token (save_token " tok " none) = Except.ok "tok" ∧
    load_auth_token none = Except.error "Токен не найден" ∧
    load_token none = Except.error "Токен не найден" := by
  have h := token_roundtrip " tok " none
  have ht : rust_trim " tok " = "tok" := by decide
  refine ⟨?_, ?_, h.2.2.1, h.2.2.2⟩
  · have h1 := h.1
    rwa [ht] at h1
  · have h2 := h.2.1 (by decide)
    rwa [ht] at h2

/-- C9: the report window starts on a Monday (day number ≡ 0 mod 7 in the
Monday-epoch day count), is the week immediately before the week containing
today, ends exactly 6 days after it starts, and one submission round issues
that same window for every category. -/
theorem report_window_previous_week (today : Int) (env : FetchEnv) (tasks0 : List TaskInfo)
    (tok : String) (h : env.token = Except.ok tok) :
    (report_window today).1 % 7 = 0 ∧
    (report_window today).2 = (report_window today).1 + 6 ∧
    (report_window today).1 + 7 ≤ today ∧ today < (report_window today).1 + 14 ∧
    (fetch_violation_tasks env tasks0).requests.map
        (fun r => (r.data_start_date, r.data_end_date))
      = List.replicate 3 (report_window env.today) := by
  refine ⟨?_, rfl, ?_, ?_, ?_⟩
  · show (today - today % 7 - 7) % 7 = 0
    omega
  · show (today - today % 7 - 7) + 7 ≤ today
    omega
  · show today < (today - today % 7 - 7) + 14
    omega
  · simp [fetch_violation_tasks, h, fetch_loop_spec, mk_task_request,
      PRODUCT_GROUP_CODES, List.replicate]

/-- Witness for C9: the window at day 9 (a Wednesday) and a concrete
submission round. -/
theorem report_window_previous_week_witness :
    (report_window 9).1 % 7 = 0 ∧
    (report_window 9).2 = (report_window 9).1 + 6 ∧
    (report_window 9).1 + 7 ≤ 9 ∧ (9 : Int) < (report_window 9).1 + 14 ∧
    (fetch_violation_tasks env9 []).requests.map
        (fun r => (r.data_start_date, r.data_end_date))
      = List.replicate 3 (report_window env9.today) :=
  report_window_previous_week 9 env9 [] "t" rfl

/-- C10: when the login reaches confirmation, the endpoint accepts the
signature, but persisting the returned token to disk fails, the flow still
returns the success message and the token file is left unchanged — the
storage failure is never surfaced to the caller. -/
theorem confirmation_success_despite_save_failure (env : SignEnv) (cert : CertificateInfo)
    (fs : FS) (uuid data path tok : String) (out : ToolOut)
    (hch : env.challenge 0 = Except.ok (uuid, data))
    (hf : env.find_cryptcp = Except.ok path)
    (hx : env.cryptcp_exists = true)
    (hr : env.run_cryptcp (signing_selector cert) = Except.ok out)
    (hs : out.exit_success = true)
    (hsig : clean_signature out.sig_content ≠ "")
    (hc : env.confirm = ConfirmHttp.okParsed tok)
    (hsave : env.save_token_fails = true) :
    (sign_file_with_certificate env cert fs).result
      = Except.ok "Авторизация успешна. Токен сохранён." ∧
    (sign_file_with_certificate env cert fs).fs.token = fs.token := by
  unfold sign_file_with_certificate
  simp [hch, hf, hx, hr, hs, hsig, send_signature_confirmation, hc, hsave]

/-- Witness for C10: a concrete login in which the token write fails yet
the flow reports success and the token file stays absent. -/
theorem confirmation_success_despite_save_failure_witness :
    (sign_file_with_certificate env10 cert0 fs0).result
      = Except.ok "Авторизация успешна. Токен сохранён." ∧
    (sign_file_with_certificate env10 cert0 fs0).fs.token = fs0.token :=
  confirmation_success_despite_save_failure env10 cert0 fs0 "u" "d" "cryptcp.exe" "tok10"
    { exit_success := true, stderr := "", stdout := "", sig_content := "SIGDATA" }
    rfl rfl rfl rfl rfl (by decide) rfl rfl

end Czn
